import Mathlib

/-!
Verification development for the `server-metrics` repository (`run.py`).

The script is a point-in-time host metrics snapshot tool: it queries the
operating system (via `psutil`) for CPU, memory, swap, per-mount disk usage,
disk/network IO counters, load average and process count, assembles one flat
ordered mapping from metric name to value, and renders it as a CSV header,
a CSV data row, pretty JSON, or a human-readable report.

The embedding below is a shallow one.  The ambient OS readings that `psutil`
would return are packaged in an explicit `Env` record; each Python function of
`run.py` becomes a pure Lean function over it.  Python `dict`s are modelled as
association lists with an insert that updates in place when the key is already
present (Python keeps the original insertion position in that case), which is
exactly the behaviour that makes silent mount-name collisions possible.
Machine floats are modelled by `ℚ` together with an explicit
round-to-two-decimals function; Python's `round` uses round-half-to-even on
binary floats, the embedding fixes one total rounding rule (half up via a
floor), and none of the properties proved below depends on tie behaviour or on
binary-float representation error.  The decimal digit rendering that Python's
`str` performs on numbers is abstracted by a canonical rendering of rationals;
no property proved below inspects the digits of a rendered number.
-/

namespace ServerMetrics

/-- A value stored in the metrics mapping: a number (Python int or float,
merged into `ℚ`), a string, or Python's `None`. -/
inductive Value where
  | vNum (q : ℚ)
  | vStr (s : String)
  | vNone
deriving DecidableEq

/-- The flat metrics mapping, in insertion order (a Python `dict`). -/
abbrev Dict := List (String × Value)

/-- Python `dict` assignment `d[k] = v`: if `k` is present the value is
replaced at its original position, otherwise the pair is appended. -/
def assocInsert {α : Type} (d : List (String × α)) (k : String) (v : α) :
    List (String × α) :=
  if k ∈ d.map Prod.fst then
    d.map (fun p => if p.1 = k then (k, v) else p)
  else d ++ [(k, v)]

/-- Python `d[k]` / `k in d`: the value stored at `k`, if any. -/
def assocLookup {α : Type} (d : List (String × α)) (k : String) : Option α :=
  (d.find? (fun p => p.1 == k)).map Prod.snd

/-- The key list of a mapping, in insertion order. -/
def dictKeys (d : Dict) : List String := d.map Prod.fst

/-- Python `s.replace(c, d)` for one-character patterns. -/
def pyReplaceChar (s : String) (c d : Char) : String :=
  String.mk (s.data.map (fun x => if x = c then d else x))

/-- Python `s.strip('_')`: drop leading and trailing underscores. -/
def pyStripUnderscore (s : String) : String :=
  String.mk (((s.data.dropWhile (· = '_')).reverse.dropWhile (· = '_')).reverse)

/-- Python `needle in hay` on strings: substring occurrence test. -/
def strContains (hay needle : String) : Bool :=
  (List.range (hay.data.length + 1)).any
    (fun i => needle.data.isPrefixOf (hay.data.drop i))

/-- Python `os.path.basename`: the part after the last path separator. -/
def osPathBasename (s : String) : String :=
  String.mk ((s.data.reverse.takeWhile (· ≠ '/')).reverse)

/-- `⌊q + 1/2⌋`, the rounding rule used throughout the embedding for
Python's `round(x, n)`. -/
def ratRound (q : ℚ) : ℤ := ⌊q + 1 / 2⌋

/-- Python `round(x, 2)` on the embedded rationals. -/
def round2 (q : ℚ) : ℚ := (ratRound (q * 100) : ℚ) / 100

/-- Canonical rendering of a rational, standing in for Python's `str` on
numbers (no verified property inspects the digits of a rendered number). -/
def ratStr (q : ℚ) : String :=
  if q.den = 1 then toString q.num else toString q.num ++ "/" ++ toString q.den

/-- Python `str(value)` on a mapping value. -/
def pyStr (v : Value) : String :=
  match v with
  | .vNone => "None"
  | .vStr s => s
  | .vNum q => ratStr q

/-- Fixed-point rendering with `n` decimals, standing in for Python's
`f"{x:.nf}"` (again, no verified property inspects the digits). -/
def fmtFixed (n : ℕ) (q : ℚ) : String :=
  let scaled : ℤ := ratRound (q * ((10 : ℚ) ^ n))
  let a := scaled.natAbs
  let ip := a / 10 ^ n
  let fp := a % 10 ^ n
  let fpStr := toString fp
  let fpPad := String.mk (List.replicate (n - fpStr.length) '0') ++ fpStr
  (if scaled < 0 then "-" else "") ++ toString ip ++
    (if n = 0 then "" else "." ++ fpPad)

/-- The result `psutil.disk_usage(mountpoint)` would return (all byte counts,
plus the percentage psutil computes itself). -/
structure Usage where
  total : ℕ
  used : ℕ
  free : ℕ
  percent : ℚ
deriving DecidableEq

/-- How a `psutil.disk_usage` call can fail (`run.py` distinguishes
`PermissionError` / `FileNotFoundError` from every other exception). -/
inductive UsageErr where
  | permissionError
  | fileNotFoundError
  | otherError (msg : String)
deriving DecidableEq

/-- Outcome of the usage query for one partition. -/
inductive UsageResult where
  | ok (u : Usage)
  | err (e : UsageErr)
deriving DecidableEq

/-- One entry of `psutil.disk_partitions(all=False)`, together with the
outcome the subsequent `psutil.disk_usage` call would have. -/
structure Partition where
  device : String
  mountpoint : String
  fstype : String
  usage : UsageResult
deriving DecidableEq

/-- The fixed virtual/pseudo filesystem types skipped by `get_disk_metrics`. -/
def virtualFsTypes : List String :=
  ["tmpfs", "devtmpfs", "squashfs", "overlay", "proc", "sysfs", "cgroup"]

/-- The per-mount record `get_disk_metrics` stores under the sanitized
mount name (`run.py` lines 39-50). -/
structure DiskInfo where
  mountpoint : String
  device : String
  fstype : String
  total_gb : ℚ
  used_gb : ℚ
  free_gb : ℚ
  percent : ℚ
  total_bytes : ℕ
  used_bytes : ℕ
  free_bytes : ℕ
deriving DecidableEq

/-- The sanitized CSV column infix for a mountpoint (`run.py` lines 32-34):
replace `/` and `.` by `_`, strip leading/trailing underscores, and use the
literal `root` when the result is empty (the root mount). -/
def mount_name (mountpoint : String) : String :=
  let m := pyStripUnderscore (pyReplaceChar (pyReplaceChar mountpoint '/' '_') '.' '_')
  if m = "" then "root" else m

/-- Result of `get_disk_metrics`: the mapping from sanitized mount name to
per-mount record, plus the diagnostic lines printed to the error stream. -/
structure DiskResult where
  metrics : List (String × DiskInfo)
  logs : List String
deriving DecidableEq

/-- One iteration of the partition loop of `get_disk_metrics`
(`run.py` lines 23-57). -/
def gdm_step (acc : DiskResult) (p : Partition) : DiskResult :=
  if p.fstype ∈ virtualFsTypes then acc
  else
    match p.usage with
    | .err .permissionError => acc
    | .err .fileNotFoundError => acc
    | .err (.otherError msg) =>
        { acc with logs := acc.logs ++ ["Error reading " ++ p.mountpoint ++ ": " ++ msg] }
    | .ok u =>
        { acc with
          metrics := assocInsert acc.metrics (mount_name p.mountpoint)
            { mountpoint := p.mountpoint
              device := osPathBasename p.device
              fstype := p.fstype
              total_gb := round2 ((u.total : ℚ) / 1024 ^ 3)
              used_gb := round2 ((u.used : ℚ) / 1024 ^ 3)
              free_gb := round2 ((u.free : ℚ) / 1024 ^ 3)
              percent := round2 u.percent
              total_bytes := u.total
              used_bytes := u.used
              free_bytes := u.free } }

/-- `get_disk_metrics()` (`run.py` lines 16-59) over the simulated partition
list. -/
def get_disk_metrics (partitions : List Partition) : DiskResult :=
  partitions.foldl gdm_step { metrics := [], logs := [] }

/-- Outcome of `psutil.getloadavg()`: three load averages, or an exception on
platforms without the facility (the one top-level query the embedding lets
fail, making the whole collection fail, as `run.py` propagates any such
exception to the top-level handler). -/
inductive LoadResult where
  | ok (l1 l5 l15 : ℚ)
  | err (msg : String)
deriving DecidableEq

/-- The ambient OS readings a collection pass observes: everything `psutil`,
`datetime` and `socket` would report in `collect_metrics`. -/
structure Env where
  timestamp : String
  hostname : String
  cpu_percent : ℚ
  cpu_count : ℕ
  cpu_freq : Option ℚ
  memory_total : ℕ
  memory_available : ℕ
  memory_used : ℕ
  memory_percent : ℚ
  swap_total : ℕ
  swap_used : ℕ
  swap_percent : ℚ
  disk_io_read : ℕ
  disk_io_write : ℕ
  net_sent : ℕ
  net_recv : ℕ
  loadavg : LoadResult
  process_count : ℕ
  partitions : List Partition
deriving DecidableEq

/-- The fixed-key part of the metrics dict (`run.py` lines 91-122).  The
literal keys are pairwise distinct, so the Python dict literal is exactly this
list in source order.  The per-core CPU sample of line 69 is computed by the
source but never stored, so it has no counterpart here.  When swap total is
zero the source stores the Python int `0`, merged here into `vNum 0`. -/
def base_dict (env : Env) (l1 l5 l15 : ℚ) : Dict :=
  [("timestamp", .vStr env.timestamp),
   ("hostname", .vStr env.hostname),
   ("cpu_percent", .vNum (round2 env.cpu_percent)),
   ("cpu_count", .vNum (env.cpu_count : ℚ)),
   ("cpu_freq_current",
     match env.cpu_freq with
     | some f => .vNum (round2 f)
     | none => .vNone),
   ("load_1min", .vNum (round2 l1)),
   ("load_5min", .vNum (round2 l5)),
   ("load_15min", .vNum (round2 l15)),
   ("memory_total_gb", .vNum (round2 ((env.memory_total : ℚ) / 1024 ^ 3))),
   ("memory_available_gb", .vNum (round2 ((env.memory_available : ℚ) / 1024 ^ 3))),
   ("memory_used_gb", .vNum (round2 ((env.memory_used : ℚ) / 1024 ^ 3))),
   ("memory_percent", .vNum (round2 env.memory_percent)),
   ("swap_total_gb",
     if env.swap_total > 0 then .vNum (round2 ((env.swap_total : ℚ) / 1024 ^ 3))
     else .vNum 0),
   ("swap_used_gb",
     if env.swap_total > 0 then .vNum (round2 ((env.swap_used : ℚ) / 1024 ^ 3))
     else .vNum 0),
   ("swap_percent",
     if env.swap_total > 0 then .vNum (round2 env.swap_percent) else .vNum 0),
   ("disk_io_read_mb", .vNum (round2 ((env.disk_io_read : ℚ) / 1024 ^ 2))),
   ("disk_io_write_mb", .vNum (round2 ((env.disk_io_write : ℚ) / 1024 ^ 2))),
   ("net_mb_sent", .vNum (round2 ((env.net_sent : ℚ) / 1024 ^ 2))),
   ("net_mb_recv", .vNum (round2 ((env.net_recv : ℚ) / 1024 ^ 2))),
   ("process_count", .vNum (env.process_count : ℚ))]

/-- The f-string key `f'disk_{mount_name}{sfx}'` used for the six dynamic
per-mount columns. -/
def disk_key (m sfx : String) : String := "disk_" ++ m ++ sfx

/-- Whether an entry's filesystem type participates in the aggregate disk
totals (`run.py` line 140): no occurrence of `overlay` or `squashfs`. -/
def keep_for_total (fs : String) : Bool :=
  !(strContains fs "overlay" || strContains fs "squashfs")

/-- The six dynamic-key assignments of one iteration of the per-mount loop
(`run.py` lines 130-137), in source order. -/
def insert6 (d : Dict) (e : String × DiskInfo) : Dict :=
  assocInsert (assocInsert (assocInsert (assocInsert (assocInsert
    (assocInsert d (disk_key e.1 "_total_gb") (.vNum e.2.total_gb))
    (disk_key e.1 "_used_gb") (.vNum e.2.used_gb))
    (disk_key e.1 "_free_gb") (.vNum e.2.free_gb))
    (disk_key e.1 "_percent") (.vNum e.2.percent))
    (disk_key e.1 "_device") (.vStr e.2.device))
    (disk_key e.1 "_fstype") (.vStr e.2.fstype)

/-- One iteration of the per-mount loop of `collect_metrics`
(`run.py` lines 128-142): insert the six dynamic keys, then accumulate the
byte totals when the filter admits the entry.  The accumulator carries
(dict, total_disk_used, total_disk_size). -/
def disk_fold_step (acc : Dict × ℕ × ℕ) (e : String × DiskInfo) : Dict × ℕ × ℕ :=
  (insert6 acc.1 e,
   if keep_for_total e.2.fstype then acc.2.1 + e.2.used_bytes else acc.2.1,
   if keep_for_total e.2.fstype then acc.2.2 + e.2.total_bytes else acc.2.2)

/-- The snapshot built by one collection pass, or the message of the exception
that aborted it. -/
inductive CResult where
  | ok (d : Dict)
  | fail (msg : String)
deriving DecidableEq

/-- Result of `collect_metrics`: the snapshot (or failure), plus the
diagnostic lines the pass printed to the error stream. -/
structure CollectResult where
  snapshot : CResult
  logs : List String
deriving DecidableEq

/-- `collect_metrics()` (`run.py` lines 61-153).  The disk pass (line 78) runs
— and prints its diagnostics — before `getloadavg` (line 85), so its log lines
are emitted even when the load-average query then aborts the collection. -/
def collect_metrics (env : Env) : CollectResult :=
  let dr := get_disk_metrics env.partitions
  match env.loadavg with
  | .err msg => { snapshot := .fail msg, logs := dr.logs }
  | .ok l1 l5 l15 =>
    let acc := dr.metrics.foldl disk_fold_step (base_dict env l1 l5 l15, 0, 0)
    let d := acc.1
    let total_disk_used := acc.2.1
    let total_disk_size := acc.2.2
    let d :=
      if total_disk_size > 0 then
        assocInsert
          (assocInsert
            (assocInsert d "disk_total_all_gb"
              (.vNum (round2 ((total_disk_size : ℚ) / 1024 ^ 3))))
            "disk_used_all_gb"
            (.vNum (round2 ((total_disk_used : ℚ) / 1024 ^ 3))))
          "disk_percent_all"
          (.vNum (round2 (((total_disk_used : ℚ) / (total_disk_size : ℚ)) * 100)))
      else d
    { snapshot := .ok (assocInsert d "disk_count" (.vNum (dr.metrics.length : ℚ)))
      logs := dr.logs }

/-- Outcome of one presenter call: the lines printed to standard output on
success, or the propagated exception message; in both cases the lines printed
to the error stream along the way. -/
inductive PRun where
  | ok (out : List String) (logs : List String)
  | fail (msg : String) (logs : List String)
deriving DecidableEq

/-- The CSV header fields a header-mode call produces: the key list of its own
fresh collection pass (empty when the pass fails — nothing reaches standard
output then). -/
def header_fields_call (e₀ : Env) : List String :=
  match (collect_metrics e₀).snapshot with
  | .ok d => dictKeys d
  | .fail _ => []

/-- CSV rendering of one value (`run.py` lines 166-175): `None` becomes the
empty field, a string containing the delimiter is wrapped in quotes and counts
as a single field, everything else is `str(value)`. -/
def csvFormatValue (v : Value) : String :=
  match v with
  | .vNone => ""
  | .vStr s => if strContains s "," then "\"" ++ s ++ "\"" else s
  | .vNum q => ratStr q

/-- The CSV data fields a row-mode call produces, one per key of its own fresh
collection pass, in that pass's insertion order. -/
def row_fields_call (e₀ : Env) : List String :=
  match (collect_metrics e₀).snapshot with
  | .ok d => d.map (fun p => csvFormatValue p.2)
  | .fail _ => []

/-- The key list the row-mode call iterates while emitting its fields. -/
def row_keys_call (e₀ : Env) : List String :=
  match (collect_metrics e₀).snapshot with
  | .ok d => dictKeys d
  | .fail _ => []

/-!
Each presenter below receives the ambient OS state at its successive
top-level query points: `e₀` is the state its single `collect_metrics()` call
observes; `e₁` is the state at the time of a hypothetical second top-level
query.  Of the four presenters only `print_human_readable` performs such a
second query (`run.py` line 182 calls `get_disk_metrics()` again), so only it
reads `e₁`.
-/

/-- `print_csv_header()` (`run.py` lines 155-158). -/
def print_csv_header (e₀ e₁ : Env) : PRun :=
  let cr := collect_metrics e₀
  match cr.snapshot with
  | .fail msg => .fail msg cr.logs
  | .ok _ => .ok [String.intercalate "," (header_fields_call e₀)] cr.logs

/-- `print_csv_row()` (`run.py` lines 160-177). -/
def print_csv_row (e₀ e₁ : Env) : PRun :=
  let cr := collect_metrics e₀
  match cr.snapshot with
  | .fail msg => .fail msg cr.logs
  | .ok _ => .ok [String.intercalate "," (row_fields_call e₀)] cr.logs

/-- JSON rendering of one value (string escaping and decimal digit rendering
abstracted; no verified property inspects them). -/
def jsonValue (v : Value) : String :=
  match v with
  | .vNone => "null"
  | .vStr s => "\"" ++ s ++ "\""
  | .vNum q => ratStr q

/-- The per-entry lines of `json.dumps(metrics, indent=2)`: every entry on its
own two-space-indented line, a trailing comma on all but the last. -/
def jsonEntryLines : Dict → List String
  | [] => []
  | [p] => ["  \"" ++ p.1 ++ "\": " ++ jsonValue p.2]
  | p :: q :: rest =>
      ("  \"" ++ p.1 ++ "\": " ++ jsonValue p.2 ++ ",") :: jsonEntryLines (q :: rest)

/-- `print_json()` (`run.py` lines 221-224). -/
def print_json (e₀ e₁ : Env) : PRun :=
  let cr := collect_metrics e₀
  match cr.snapshot with
  | .fail msg => .fail msg cr.logs
  | .ok d => .ok (["\x7b"] ++ jsonEntryLines d ++ ["\x7d"]) cr.logs

/-- The numeric content of a mapping value (`0` for the cases the human
report never formats numerically). -/
def vnum (v : Value) : ℚ :=
  match v with
  | .vNum q => q
  | _ => 0

/-- The number stored under `k`, as the human report's format specifiers
read it. -/
def lookn (d : Dict) (k : String) : ℚ :=
  vnum ((assocLookup d k).getD .vNone)

/-- The `str` rendering of the value stored under `k`, as the human report's
plain interpolations read it. -/
def looks (d : Dict) (k : String) : String :=
  pyStr ((assocLookup d k).getD .vNone)

/-- The 60-character separator line of the human report. -/
def sepLine : String := String.mk (List.replicate 60 '=')

/-- The four lines the human report prints for one disk entry
(`run.py` lines 200-205). -/
def humanDiskLines (e : String × DiskInfo) : List String :=
  ["  " ++ e.2.mountpoint ++ ":",
   "    Used: " ++ fmtFixed 1 e.2.used_gb ++ " GB / " ++ fmtFixed 1 e.2.total_gb
     ++ " GB (" ++ ratStr e.2.percent ++ "%)",
   "    Free: " ++ fmtFixed 1 e.2.free_gb ++ " GB",
   "    Type: " ++ e.2.device ++ " (" ++ e.2.fstype ++ ")"]

/-- `print_human_readable()` (`run.py` lines 179-219).  After its collection
call it re-enumerates the disks with a second `get_disk_metrics()` call
(line 182), observing the ambient state `e₁`; the per-disk section of the
report is rendered from that second result, while every other section reads
the snapshot of the first call.  Each `print` call of the source is one
element of the output list (embedded leading newlines kept verbatim). -/
def print_human_readable (e₀ e₁ : Env) : PRun :=
  let cr := collect_metrics e₀
  match cr.snapshot with
  | .fail msg => .fail msg cr.logs
  | .ok d =>
    let dr := get_disk_metrics e₁.partitions
    let out :=
      ["\n" ++ sepLine,
       "System Metrics Report - " ++ looks d "timestamp",
       sepLine,
       "\n📊 CPU Usage:",
       "  Overall: " ++ looks d "cpu_percent" ++ "%",
       "  Load Average: " ++ fmtFixed 2 (lookn d "load_1min") ++ ", "
         ++ fmtFixed 2 (lookn d "load_5min") ++ ", "
         ++ fmtFixed 2 (lookn d "load_15min"),
       "\n🧠 Memory:",
       "  Used: " ++ fmtFixed 1 (lookn d "memory_used_gb") ++ " GB / "
         ++ fmtFixed 1 (lookn d "memory_total_gb") ++ " GB ("
         ++ looks d "memory_percent" ++ "%)",
       "  Available: " ++ fmtFixed 1 (lookn d "memory_available_gb") ++ " GB"]
      ++ (if lookn d "swap_total_gb" > 0 then
            ["  Swap: " ++ fmtFixed 1 (lookn d "swap_used_gb") ++ " GB / "
              ++ fmtFixed 1 (lookn d "swap_total_gb") ++ " GB ("
              ++ looks d "swap_percent" ++ "%)"]
          else [])
      ++ ["\n💾 Disk Usage:"]
      ++ dr.metrics.foldr (fun e acc => humanDiskLines e ++ acc) []
      ++ ["\n📈 Disk IO:",
          "  Read: " ++ fmtFixed 1 (lookn d "disk_io_read_mb") ++ " MB",
          "  Write: " ++ fmtFixed 1 (lookn d "disk_io_write_mb") ++ " MB",
          "\n🌐 Network:",
          "  Sent: " ++ fmtFixed 1 (lookn d "net_mb_sent") ++ " MB",
          "  Received: " ++ fmtFixed 1 (lookn d "net_mb_recv") ++ " MB",
          "\n🔢 System:",
          "  Processes: " ++ looks d "process_count",
          "  Disks: " ++ looks d "disk_count",
          "\n" ++ sepLine]
    .ok out (cr.logs ++ dr.logs)

/-- The values `argparse` accepts for `--format`
(`run.py` line 228, `choices=['csv', 'json', 'header', 'human']`). -/
def formatChoices : List String := ["csv", "json", "header", "human"]

/-- The `if/elif/else` dispatch of `__main__` (`run.py` lines 236-243): every
format other than `header`, `json` and `human` falls through to the CSV data
row branch. -/
def dispatch_format (fmt : String) (e₀ e₁ : Env) : PRun :=
  if fmt = "header" then print_csv_header e₀ e₁
  else if fmt = "json" then print_json e₀ e₁
  else if fmt = "human" then print_human_readable e₀ e₁
  else print_csv_row e₀ e₁

/-- Observable outcome of one process invocation: exit status, standard
output lines, error stream lines. -/
structure RunResult where
  exitCode : ℕ
  outLines : List String
  errLines : List String
deriving DecidableEq

/-- One process invocation (`run.py` lines 226-250).  `argparse` rejects a
`--format` value outside its `choices` with a usage error on the error stream
and exit status 2, before any metric code runs.  On an accepted value the
dispatched presenter runs inside the `try` block: an exception is printed to
the error stream (after any diagnostics already emitted) and the process exits
with status 1; on success it exits with status 0 — `sys.exit(0)` when `--once`
is absent, falling off the end of the script otherwise, both status 0, so
`once` does not affect the outcome. -/
def run_main (fmt : String) (once : Bool) (e₀ e₁ : Env) : RunResult :=
  if fmt ∈ formatChoices then
    match dispatch_format fmt e₀ e₁ with
    | .ok out logs => { exitCode := 0, outLines := out, errLines := logs }
    | .fail msg logs =>
        { exitCode := 1, outLines := [],
          errLines := logs ++ ["Error collecting metrics: " ++ msg] }
  else
    { exitCode := 2, outLines := [],
      errLines := ["argument --format: invalid choice: " ++ fmt] }

/-!
Definitions used only to state properties: the expected shape of the dynamic
key block, the aggregate byte totals, small observation functions, and the
concrete simulated environments the witnesses run on.
-/

/-- The six dynamic column names generated for one sanitized mount name, in
the insertion order of `run.py` lines 130-137. -/
def keys6 (m : String) : List String :=
  [disk_key m "_total_gb", disk_key m "_used_gb", disk_key m "_free_gb",
   disk_key m "_percent", disk_key m "_device", disk_key m "_fstype"]

/-- The six dynamic key/value pairs generated for one disk entry. -/
def pairs6 (e : String × DiskInfo) : Dict :=
  [(disk_key e.1 "_total_gb", .vNum e.2.total_gb),
   (disk_key e.1 "_used_gb", .vNum e.2.used_gb),
   (disk_key e.1 "_free_gb", .vNum e.2.free_gb),
   (disk_key e.1 "_percent", .vNum e.2.percent),
   (disk_key e.1 "_device", .vStr e.2.device),
   (disk_key e.1 "_fstype", .vStr e.2.fstype)]

/-- All dynamic column names of a disk mapping, in enumeration order. -/
def dyn_keys : List (String × DiskInfo) → List String
  | [] => []
  | e :: t => keys6 e.1 ++ dyn_keys t

/-- All dynamic key/value pairs of a disk mapping, in enumeration order. -/
def dyn_pairs : List (String × DiskInfo) → Dict
  | [] => []
  | e :: t => pairs6 e ++ dyn_pairs t

/-- Total used bytes over the entries admitted by `keep_for_total`. -/
def agg_used : List (String × DiskInfo) → ℕ
  | [] => 0
  | e :: t => (if keep_for_total e.2.fstype then e.2.used_bytes else 0) + agg_used t

/-- Total size in bytes over the entries admitted by `keep_for_total`. -/
def agg_size : List (String × DiskInfo) → ℕ
  | [] => 0
  | e :: t => (if keep_for_total e.2.fstype then e.2.total_bytes else 0) + agg_size t

/-- The value a collection pass stored under `k`, when the pass succeeded. -/
def csnap_lookup (c : CollectResult) (k : String) : Option Value :=
  match c.snapshot with
  | .ok d => assocLookup d k
  | .fail _ => none

/-- The error-stream lines of a presenter call. -/
def prun_logs : PRun → List String
  | .ok _ logs => logs
  | .fail _ logs => logs

/-- The sanitized mount name as the specification words it: path separators
and dots become underscores, leading/trailing underscores are trimmed, and an
empty result maps to the literal name `root`. -/
def spec_mount_name (mp : String) : String :=
  let r := mp.data.map (fun ch => if ch = '/' ∨ ch = '.' then '_' else ch)
  let t := ((r.dropWhile (· = '_')).reverse.dropWhile (· = '_')).reverse
  if String.mk t = "" then "root" else String.mk t

/-- A 100 GiB usage reading, 40 % used. -/
def usage100 : Usage :=
  { total := 100 * 1024 ^ 3, used := 40 * 1024 ^ 3, free := 60 * 1024 ^ 3,
    percent := 40 }

/-- A 50 GiB usage reading, 50 % used. -/
def usage50 : Usage :=
  { total := 50 * 1024 ^ 3, used := 25 * 1024 ^ 3, free := 25 * 1024 ^ 3,
    percent := 50 }

/-- An exact 10 GiB usage reading. -/
def usage10 : Usage :=
  { total := 10737418240, used := 5 * 1024 ^ 3, free := 5 * 1024 ^ 3,
    percent := 50 }

/-- A healthy simulated host: one ext4 root mount, zero swap, load averages
available. -/
def env_a : Env :=
  { timestamp := "2024-01-01T00:00:00"
    hostname := "host1"
    cpu_percent := 12.5
    cpu_count := 4
    cpu_freq := some 2400
    memory_total := 16 * 1024 ^ 3
    memory_available := 8 * 1024 ^ 3
    memory_used := 8 * 1024 ^ 3
    memory_percent := 50
    swap_total := 0
    swap_used := 0
    swap_percent := 0
    disk_io_read := 100 * 1024 ^ 2
    disk_io_write := 50 * 1024 ^ 2
    net_sent := 10 * 1024 ^ 2
    net_recv := 20 * 1024 ^ 2
    loadavg := .ok 0.5 0.75 1
    process_count := 123
    partitions := [{ device := "/dev/sda1", mountpoint := "/", fstype := "ext4",
                     usage := .ok usage100 }] }

/-- The same host at a moment where `getloadavg` raises. -/
def env_b : Env := { env_a with loadavg := .err "getloadavg unavailable" }

/-- The same host at a moment where the only visible partition's usage query
raises a generic `OSError`. -/
def env_err : Env :=
  { env_a with
    partitions := [{ device := "/dev/sdc1", mountpoint := "/broken",
                     fstype := "ext4", usage := .err (.otherError "device busy") }] }

/-- The same host with a different hostname reading but identical partitions. -/
def env_a2 : Env := { env_a with hostname := "host2" }

/-- The error-stream lines one partition contributes during the disk pass:
one line exactly when the partition is non-virtual and its usage query fails
with an error other than permission/not-found. -/
def gdm_log_of (p : Partition) : List String :=
  if p.fstype ∈ virtualFsTypes then []
  else
    match p.usage with
    | .err (.otherError msg) => ["Error reading " ++ p.mountpoint ++ ": " ++ msg]
    | _ => []

/-!
Helper lemmas: behaviour of the Python-dict insert and lookup, first
characters of the dynamic keys, and decompositions of the two folds.
-/

theorem assocInsert_of_not_mem {α : Type} (d : List (String × α)) (k : String)
    (v : α) (h : k ∉ d.map Prod.fst) : assocInsert d k v = d ++ [(k, v)] := by
  simp [assocInsert, h]

theorem assocLookup_cons {α : Type} (k' : String) (v : α)
    (d : List (String × α)) (k : String) :
    assocLookup ((k', v) :: d) k = if k' = k then some v else assocLookup d k := by
  by_cases h : k' = k <;> simp [assocLookup, List.find?_cons, h]

theorem assocLookup_insert_self {α : Type} (d : List (String × α))
    (k : String) (v : α) : assocLookup (assocInsert d k v) k = some v := by
  by_cases hm : k ∈ d.map Prod.fst
  · simp only [assocInsert, if_pos hm]
    induction d with
    | nil => simp at hm
    | cons p t ih =>
      obtain ⟨a, b⟩ := p
      by_cases hp : a = k
      · simp [List.map_cons, hp, assocLookup_cons]
      · simp only [List.map_cons, List.mem_cons] at hm
        rcases hm with hm | hm
        · exact absurd hm.symm hp
        · simp [List.map_cons, hp, assocLookup_cons, ih hm]
  · rw [assocInsert_of_not_mem _ _ _ hm]
    induction d with
    | nil => simp [assocLookup_cons]
    | cons p t ih =>
      obtain ⟨a, b⟩ := p
      simp only [List.map_cons, List.mem_cons, not_or] at hm
      have ha : a ≠ k := fun he => hm.1 he.symm
      simp [List.cons_append, assocLookup_cons, ha, ih hm.2]

theorem assocLookup_insert_ne {α : Type} (d : List (String × α))
    (k' : String) (v : α) (k : String) (h : k' ≠ k) :
    assocLookup (assocInsert d k' v) k = assocLookup d k := by
  have aux : ∀ t : List (String × α),
      assocLookup (t.map (fun p => if p.1 = k' then (k', v) else p)) k
        = assocLookup t k := by
    intro t
    induction t with
    | nil => rfl
    | cons p t ih =>
      obtain ⟨a, b⟩ := p
      by_cases hp : a = k'
      · have hak : a ≠ k := hp ▸ h
        simp [hp, assocLookup_cons, hak, h, ih]
      · have hkk : k ≠ k' := fun he => h he.symm
        by_cases hak : a = k <;> simp [hp, assocLookup_cons, hak, hkk, ih]
  have aux2 : ∀ t : List (String × α),
      assocLookup (t ++ [(k', v)]) k = assocLookup t k := by
    intro t
    induction t with
    | nil => simp [List.nil_append, assocLookup_cons, h]
    | cons p t ih =>
      obtain ⟨a, b⟩ := p
      by_cases hak : a = k <;> simp [List.cons_append, assocLookup_cons, hak, ih]
  by_cases hm : k' ∈ d.map Prod.fst
  · simp only [assocInsert, if_pos hm]
    exact aux d
  · rw [assocInsert_of_not_mem _ _ _ hm]
    exact aux2 d

theorem disk_key_head (m sfx : String) :
    (disk_key m sfx).data.head? = some 'd' := by
  simp [disk_key, String.data_append]

theorem disk_key_ne (m sfx k : String) (h : k.data.head? ≠ some 'd') :
    disk_key m sfx ≠ k :=
  fun he => h (he ▸ disk_key_head m sfx)

theorem gdm_step_excluded (acc : DiskResult) (p : Partition)
    (h : p.fstype ∈ virtualFsTypes ∨ p.usage = .err .permissionError
      ∨ p.usage = .err .fileNotFoundError) :
    gdm_step acc p = acc := by
  rcases h with h | h | h
  · simp [gdm_step, h]
  · by_cases hv : p.fstype ∈ virtualFsTypes <;> simp [gdm_step, hv, h]
  · by_cases hv : p.fstype ∈ virtualFsTypes <;> simp [gdm_step, hv, h]

theorem gdm_step_metrics (acc : DiskResult) (p : Partition) :
    (gdm_step acc p).metrics
      = (gdm_step { metrics := acc.metrics, logs := [] } p).metrics := by
  by_cases hv : p.fstype ∈ virtualFsTypes
  · simp [gdm_step, hv]
  · rcases hu : p.usage with u | e
    · simp [gdm_step, hv, hu]
    · cases e <;> simp [gdm_step, hv, hu]

theorem gdm_step_logs (acc : DiskResult) (p : Partition) :
    (gdm_step acc p).logs = acc.logs ++ gdm_log_of p := by
  by_cases hv : p.fstype ∈ virtualFsTypes
  · simp [gdm_step, gdm_log_of, hv]
  · rcases hu : p.usage with u | e
    · simp [gdm_step, gdm_log_of, hv, hu]
    · cases e <;> simp [gdm_step, gdm_log_of, hv, hu]

theorem gdm_fold_metrics_only (l : List Partition) :
    ∀ acc₁ acc₂ : DiskResult, acc₁.metrics = acc₂.metrics →
      (l.foldl gdm_step acc₁).metrics = (l.foldl gdm_step acc₂).metrics := by
  induction l with
  | nil => intro acc₁ acc₂ h; exact h
  | cons p t ih =>
    intro acc₁ acc₂ h
    apply ih
    rw [gdm_step_metrics acc₁ p, gdm_step_metrics acc₂ p, h]

theorem gdm_fold_logs (l : List Partition) :
    ∀ acc : DiskResult, (l.foldl gdm_step acc).logs
      = acc.logs ++ l.foldr (fun p r => gdm_log_of p ++ r) [] := by
  induction l with
  | nil => intro acc; simp
  | cons p t ih =>
    intro acc
    rw [List.foldl_cons, ih, gdm_step_logs, List.foldr_cons, List.append_assoc]

theorem disk_key_suffix_ne (m s₁ s₂ : String) (hs : s₁.data ≠ s₂.data) :
    disk_key m s₁ ≠ disk_key m s₂ := by
  intro he
  apply hs
  have hd := congrArg String.data he
  simp only [disk_key, String.data_append, List.append_assoc] at hd
  exact List.append_cancel_left (List.append_cancel_left hd)

theorem disk_fold_step_fresh (d : Dict) (u s : ℕ) (e : String × DiskInfo)
    (hfresh : ∀ k ∈ keys6 e.1, k ∉ d.map Prod.fst) :
    disk_fold_step (d, u, s) e
      = (d ++ pairs6 e,
         u + (if keep_for_total e.2.fstype then e.2.used_bytes else 0),
         s + (if keep_for_total e.2.fstype then e.2.total_bytes else 0)) := by
  have h1 := hfresh (disk_key e.1 "_total_gb") (by simp [keys6])
  have h2 := hfresh (disk_key e.1 "_used_gb") (by simp [keys6])
  have h3 := hfresh (disk_key e.1 "_free_gb") (by simp [keys6])
  have h4 := hfresh (disk_key e.1 "_percent") (by simp [keys6])
  have h5 := hfresh (disk_key e.1 "_device") (by simp [keys6])
  have h6 := hfresh (disk_key e.1 "_fstype") (by simp [keys6])
  have ne' : ∀ s₁ s₂ : String, s₁.data ≠ s₂.data →
      disk_key e.1 s₁ ≠ disk_key e.1 s₂ := fun _ _ => disk_key_suffix_ne e.1 _ _
  have e1 := assocInsert_of_not_mem d (disk_key e.1 "_total_gb")
    (Value.vNum e.2.total_gb) h1
  have e2 := assocInsert_of_not_mem
    (d ++ [(disk_key e.1 "_total_gb", Value.vNum e.2.total_gb)])
    (disk_key e.1 "_used_gb") (Value.vNum e.2.used_gb) (by
      simp only [List.map_append, List.mem_append, List.map_cons, List.map_nil,
        List.mem_singleton, not_or]
      exact ⟨h2, ne' _ _ (by decide)⟩)
  have e3 := assocInsert_of_not_mem
    (d ++ [(disk_key e.1 "_total_gb", Value.vNum e.2.total_gb)]
       ++ [(disk_key e.1 "_used_gb", Value.vNum e.2.used_gb)])
    (disk_key e.1 "_free_gb") (Value.vNum e.2.free_gb) (by
      simp only [List.map_append, List.mem_append, List.map_cons, List.map_nil,
        List.mem_singleton, not_or]
      exact ⟨⟨h3, ne' _ _ (by decide)⟩, ne' _ _ (by decide)⟩)
  have e4 := assocInsert_of_not_mem
    (d ++ [(disk_key e.1 "_total_gb", Value.vNum e.2.total_gb)]
       ++ [(disk_key e.1 "_used_gb", Value.vNum e.2.used_gb)]
       ++ [(disk_key e.1 "_free_gb", Value.vNum e.2.free_gb)])
    (disk_key e.1 "_percent") (Value.vNum e.2.percent) (by
      simp only [List.map_append, List.mem_append, List.map_cons, List.map_nil,
        List.mem_singleton, not_or]
      exact ⟨⟨⟨h4, ne' _ _ (by decide)⟩, ne' _ _ (by decide)⟩, ne' _ _ (by decide)⟩)
  have e5 := assocInsert_of_not_mem
    (d ++ [(disk_key e.1 "_total_gb", Value.vNum e.2.total_gb)]
       ++ [(disk_key e.1 "_used_gb", Value.vNum e.2.used_gb)]
       ++ [(disk_key e.1 "_free_gb", Value.vNum e.2.free_gb)]
       ++ [(disk_key e.1 "_percent", Value.vNum e.2.percent)])
    (disk_key e.1 "_device") (Value.vStr e.2.device) (by
      simp only [List.map_append, List.mem_append, List.map_cons, List.map_nil,
        List.mem_singleton, not_or]
      exact ⟨⟨⟨⟨h5, ne' _ _ (by decide)⟩, ne' _ _ (by decide)⟩, ne' _ _ (by decide)⟩,
        ne' _ _ (by decide)⟩)
  have e6 := assocInsert_of_not_mem
    (d ++ [(disk_key e.1 "_total_gb", Value.vNum e.2.total_gb)]
       ++ [(disk_key e.1 "_used_gb", Value.vNum e.2.used_gb)]
       ++ [(disk_key e.1 "_free_gb", Value.vNum e.2.free_gb)]
       ++ [(disk_key e.1 "_percent", Value.vNum e.2.percent)]
       ++ [(disk_key e.1 "_device", Value.vStr e.2.device)])
    (disk_key e.1 "_fstype") (Value.vStr e.2.fstype) (by
      simp only [List.map_append, List.mem_append, List.map_cons, List.map_nil,
        List.mem_singleton, not_or]
      exact ⟨⟨⟨⟨⟨h6, ne' _ _ (by decide)⟩, ne' _ _ (by decide)⟩, ne' _ _ (by decide)⟩,
        ne' _ _ (by decide)⟩, ne' _ _ (by decide)⟩)
  simp only [disk_fold_step, insert6, e1, e2, e3, e4, e5, e6]
  by_cases hk : keep_for_total e.2.fstype <;>
    simp [hk, pairs6, List.append_assoc]

theorem pairs6_keys (e : String × DiskInfo) :
    (pairs6 e).map Prod.fst = keys6 e.1 := rfl

theorem fold_dyn (dm : List (String × DiskInfo)) :
    ∀ (d : Dict) (u s : ℕ), (d.map Prod.fst ++ dyn_keys dm).Nodup →
      dm.foldl disk_fold_step (d, u, s)
        = (d ++ dyn_pairs dm, u + agg_used dm, s + agg_size dm) := by
  induction dm with
  | nil =>
    intro d u s _
    simp [dyn_pairs, agg_used, agg_size]
  | cons e t ih =>
    intro d u s h
    have h' : (d.map Prod.fst ++ (keys6 e.1 ++ dyn_keys t)).Nodup := by
      simpa [dyn_keys] using h
    have hdisj : (d.map Prod.fst).Disjoint (keys6 e.1 ++ dyn_keys t) :=
      (List.nodup_append.mp h').2.2
    have hfresh : ∀ k ∈ keys6 e.1, k ∉ d.map Prod.fst :=
      fun k hk hkd => hdisj hkd (List.mem_append_left _ hk)
    rw [List.foldl_cons, disk_fold_step_fresh d u s e hfresh]
    rw [ih (d ++ pairs6 e) _ _ (by
      simpa [List.map_append, pairs6_keys, List.append_assoc] using h')]
    simp [dyn_pairs, agg_used, agg_size, List.append_assoc, Nat.add_assoc]

theorem dyn_pairs_keys (dm : List (String × DiskInfo)) :
    (dyn_pairs dm).map Prod.fst = dyn_keys dm := by
  induction dm with
  | nil => rfl
  | cons e t ih => simp [dyn_pairs, dyn_keys, List.map_append, pairs6_keys, ih]

theorem assoc_insert4 (D : Dict) (k1 k2 k3 k4 : String) {v1 v2 v3 v4 : Value}
    (h1 : k1 ∉ D.map Prod.fst) (h2 : k2 ∉ D.map Prod.fst)
    (h3 : k3 ∉ D.map Prod.fst) (h4 : k4 ∉ D.map Prod.fst)
    (n21 : k2 ≠ k1) (n31 : k3 ≠ k1) (n32 : k3 ≠ k2)
    (n41 : k4 ≠ k1) (n42 : k4 ≠ k2) (n43 : k4 ≠ k3) :
    assocInsert (assocInsert (assocInsert (assocInsert D k1 v1) k2 v2) k3 v3) k4 v4
      = D ++ [(k1, v1), (k2, v2), (k3, v3), (k4, v4)] := by
  have e1 := assocInsert_of_not_mem D k1 v1 h1
  have e2 := assocInsert_of_not_mem (D ++ [(k1, v1)]) k2 v2 (by
    simp only [List.map_append, List.mem_append, List.map_cons, List.map_nil,
      List.mem_singleton, not_or]
    exact ⟨h2, n21⟩)
  have e3 := assocInsert_of_not_mem (D ++ [(k1, v1)] ++ [(k2, v2)]) k3 v3 (by
    simp only [List.map_append, List.mem_append, List.map_cons, List.map_nil,
      List.mem_singleton, not_or]
    exact ⟨⟨h3, n31⟩, n32⟩)
  have e4 := assocInsert_of_not_mem (D ++ [(k1, v1)] ++ [(k2, v2)] ++ [(k3, v3)])
    k4 v4 (by
    simp only [List.map_append, List.mem_append, List.map_cons, List.map_nil,
      List.mem_singleton, not_or]
    exact ⟨⟨⟨h4, n41⟩, n42⟩, n43⟩)
  rw [e1]
  rw [e2]
  rw [e3]
  rw [e4]
  simp [List.append_assoc]

theorem fold_dyn_lookup (dm : List (String × DiskInfo)) (k : String)
    (hk : ∀ m sfx, disk_key m sfx ≠ k) :
    ∀ acc : Dict × ℕ × ℕ,
      assocLookup (dm.foldl disk_fold_step acc).1 k = assocLookup acc.1 k := by
  induction dm with
  | nil => intro acc; rfl
  | cons e t ih =>
    intro acc
    obtain ⟨d, u, s⟩ := acc
    rw [List.foldl_cons, ih]
    have hfst : (disk_fold_step (d, u, s) e).1 = insert6 d e := by
      simp only [disk_fold_step]
    rw [hfst]
    simp only [insert6]
    rw [assocLookup_insert_ne _ _ _ _ (hk _ _),
        assocLookup_insert_ne _ _ _ _ (hk _ _),
        assocLookup_insert_ne _ _ _ _ (hk _ _),
        assocLookup_insert_ne _ _ _ _ (hk _ _),
        assocLookup_insert_ne _ _ _ _ (hk _ _),
        assocLookup_insert_ne _ _ _ _ (hk _ _)]

/-- Structural normal form of a successful collection pass: the snapshot is
the fixed keys, then the dynamic per-mount block in enumeration order, then —
only when the accumulated byte total is positive — the three aggregate disk
keys, then `disk_count`, provided no key of the expected layout collides with
an earlier one (the situation in every run without sanitized-name clashes
against the reserved names). -/
theorem collect_metrics_eq (env : Env) (l1 l5 l15 : ℚ)
    (hl : env.loadavg = .ok l1 l5 l15)
    (hk : ((base_dict env l1 l5 l15).map Prod.fst
        ++ dyn_keys (get_disk_metrics env.partitions).metrics
        ++ ["disk_total_all_gb", "disk_used_all_gb", "disk_percent_all",
            "disk_count"]).Nodup) :
    collect_metrics env =
      { snapshot := .ok (base_dict env l1 l5 l15
          ++ dyn_pairs (get_disk_metrics env.partitions).metrics
          ++ (if agg_size (get_disk_metrics env.partitions).metrics > 0 then
                [("disk_total_all_gb", .vNum (round2
                    ((agg_size (get_disk_metrics env.partitions).metrics : ℚ) / 1024 ^ 3))),
                 ("disk_used_all_gb", .vNum (round2
                    ((agg_used (get_disk_metrics env.partitions).metrics : ℚ) / 1024 ^ 3))),
                 ("disk_percent_all", .vNum (round2
                    (((agg_used (get_disk_metrics env.partitions).metrics : ℚ)
                      / (agg_size (get_disk_metrics env.partitions).metrics : ℚ)) * 100)))]
              else [])
          ++ [("disk_count", .vNum ((get_disk_metrics env.partitions).metrics.length : ℚ))])
        logs := (get_disk_metrics env.partitions).logs } := by
  have hsplit := List.nodup_append.mp hk
  have hAB : ((base_dict env l1 l5 l15).map Prod.fst
      ++ dyn_keys (get_disk_metrics env.partitions).metrics).Nodup := hsplit.1
  have hnotin : ∀ x : String,
      x ∈ (["disk_total_all_gb", "disk_used_all_gb", "disk_percent_all",
            "disk_count"] : List String) →
      x ∉ (base_dict env l1 l5 l15).map Prod.fst
        ++ dyn_keys (get_disk_metrics env.partitions).metrics :=
    fun x hx hmem => hsplit.2.2 hmem hx
  have hM0 : (base_dict env l1 l5 l15
      ++ dyn_pairs (get_disk_metrics env.partitions).metrics).map Prod.fst
      = (base_dict env l1 l5 l15).map Prod.fst
        ++ dyn_keys (get_disk_metrics env.partitions).metrics := by
    simp [List.map_append, dyn_pairs_keys]
  have hnotin' : ∀ x : String,
      x ∈ (["disk_total_all_gb", "disk_used_all_gb", "disk_percent_all",
            "disk_count"] : List String) →
      x ∉ (base_dict env l1 l5 l15
        ++ dyn_pairs (get_disk_metrics env.partitions).metrics).map Prod.fst := by
    intro x hx
    rw [hM0]
    exact hnotin x hx
  simp only [collect_metrics, hl]
  rw [fold_dyn _ _ _ _ hAB]
  simp only [Nat.zero_add]
  by_cases hpos : agg_size (get_disk_metrics env.partitions).metrics > 0
  · rw [if_pos hpos, if_pos hpos]
    rw [assoc_insert4
      (base_dict env l1 l5 l15 ++ dyn_pairs (get_disk_metrics env.partitions).metrics)
      "disk_total_all_gb" "disk_used_all_gb" "disk_percent_all" "disk_count"
      (hnotin' _ (by decide)) (hnotin' _ (by decide)) (hnotin' _ (by decide))
      (hnotin' _ (by decide)) (by decide) (by decide) (by decide) (by decide)
      (by decide) (by decide)]
    simp [List.append_assoc]
  · rw [if_neg hpos, if_neg hpos]
    rw [assocInsert_of_not_mem
      (base_dict env l1 l5 l15 ++ dyn_pairs (get_disk_metrics env.partitions).metrics)
      "disk_count" _ (hnotin' _ (by decide))]
    simp

theorem assocLookup_eq_none {α : Type} (d : List (String × α)) (k : String)
    (h : k ∉ d.map Prod.fst) : assocLookup d k = none := by
  induction d with
  | nil => rfl
  | cons p t ih =>
    obtain ⟨a, b⟩ := p
    simp only [List.map_cons, List.mem_cons, not_or] at h
    have ha : a ≠ k := fun he => h.1 he.symm
    simp [assocLookup_cons, ha, ih h.2]

/-- C1: under one fixed set of simulated mounted filesystems and OS readings,
a header-mode call and a row-mode call derive their columns from identical
key lists in identical insertion order, so the header's column count equals
the number of CSV fields in the data row (a quoted comma-containing string
value is a single field of the field list). -/
theorem c1_header_row_parity (e₀ : Env) :
    header_fields_call e₀ = row_keys_call e₀
    ∧ (header_fields_call e₀).length = (row_fields_call e₀).length := by
  cases h : (collect_metrics e₀).snapshot with
  | ok d =>
    simp [header_fields_call, row_keys_call, row_fields_call, dictKeys, h]
  | fail msg =>
    simp [header_fields_call, row_keys_call, row_fields_call, h]

/-- C2: two distinct mountpoints that sanitize to the same name collide
silently — `/data` and `/data.` both sanitize to `data`, the mapping retains
a single entry holding the later partition's data (mountpoint `/data.`,
device `sdb1`), the earlier partition's record is gone, and nothing is
logged to the error stream. -/
theorem c2_collision_overwrite :
    mount_name "/data" = "data" ∧ mount_name "/data." = "data"
    ∧ (get_disk_metrics
        [{ device := "/dev/sda1", mountpoint := "/data", fstype := "ext4",
           usage := .ok usage100 },
         { device := "/dev/sdb1", mountpoint := "/data.", fstype := "ext4",
           usage := .ok usage50 }]).metrics.length = 1
    ∧ ((assocLookup (get_disk_metrics
        [{ device := "/dev/sda1", mountpoint := "/data", fstype := "ext4",
           usage := .ok usage100 },
         { device := "/dev/sdb1", mountpoint := "/data.", fstype := "ext4",
           usage := .ok usage50 }]).metrics "data").map DiskInfo.mountpoint
        = some "/data.")
    ∧ ((assocLookup (get_disk_metrics
        [{ device := "/dev/sda1", mountpoint := "/data", fstype := "ext4",
           usage := .ok usage100 },
         { device := "/dev/sdb1", mountpoint := "/data.", fstype := "ext4",
           usage := .ok usage50 }]).metrics "data").map DiskInfo.device
        = some "sdb1")
    ∧ (get_disk_metrics
        [{ device := "/dev/sda1", mountpoint := "/data", fstype := "ext4",
           usage := .ok usage100 },
         { device := "/dev/sdb1", mountpoint := "/data.", fstype := "ext4",
           usage := .ok usage50 }]).logs = [] := by
  decide

/-- C3 counterexample: a `--format` value outside argparse's `choices` is
rejected before any dispatch — the process emits nothing on standard output
and exits with the argparse usage-error status, not with a CSV data row. -/
theorem c3_unrecognized_rejected :
    (run_main "xml" false env_a env_a).outLines = []
    ∧ (run_main "xml" false env_a env_a).exitCode = 2 := by
  decide

/-- C3 (amended): within the dispatch, any format other than `header`, `json`
and `human` falls through to CSV row emission; but since `argparse` restricts
`--format` to {csv, json, header, human}, the only value that can reach the
fall-through branch is `csv` — a value outside the choices is rejected with a
usage error (exit status 2, empty standard output), not emitted as a row. -/
theorem c3_fallthrough_amended (s : String) (e₀ e₁ : Env)
    (h1 : s ≠ "header") (h2 : s ≠ "json") (h3 : s ≠ "human") :
    dispatch_format s e₀ e₁ = print_csv_row e₀ e₁
    ∧ (s ∈ formatChoices → s = "csv")
    ∧ (s ∉ formatChoices →
        run_main s false e₀ e₁
          = { exitCode := 2, outLines := [],
              errLines := ["argument --format: invalid choice: " ++ s] }) := by
  refine ⟨?_, ?_, ?_⟩
  · simp [dispatch_format, h1, h2, h3]
  · intro hs
    simp only [formatChoices, List.mem_cons, List.not_mem_nil, or_false] at hs
    rcases hs with rfl | rfl | rfl | rfl
    · rfl
    · exact absurd rfl h2
    · exact absurd rfl h1
    · exact absurd rfl h3
  · intro hs
    simp [run_main, hs]

theorem c3_fallthrough_witness :
    dispatch_format "csv" env_a env_a = print_csv_row env_a env_a
    ∧ ("csv" ∈ formatChoices → "csv" = "csv")
    ∧ ("csv" ∉ formatChoices →
        run_main "csv" false env_a env_a
          = { exitCode := 2, outLines := [],
              errLines := ["argument --format: invalid choice: " ++ "csv"] }) :=
  c3_fallthrough_amended "csv" env_a env_a (by decide) (by decide) (by decide)

/-- C4 counterexample: the human presenter's output is not a function of its
single collection call alone — with the same collection-time state, changing
only the ambient state observed by its second `get_disk_metrics()` call
changes its output (here even its error-stream lines). -/
theorem c4_human_second_query :
    print_human_readable env_a env_a ≠ print_human_readable env_a env_err := by
  intro h
  exact absurd (congrArg prun_logs h) (by decide)

/-- C4 (amended): the header, row and JSON presenters consume exactly the
mapping of their one fresh collection call and perform no further OS query —
their output is unchanged under any change of the later ambient state; the
human presenter performs exactly one additional OS query, the re-enumeration
of disk partitions, so its output depends on the later state only through
the partition list. -/
theorem c4_presenter_amended (e₀ e₁ e₁' : Env)
    (hp : e₁.partitions = e₁'.partitions) :
    print_csv_header e₀ e₁ = print_csv_header e₀ e₁'
    ∧ print_csv_row e₀ e₁ = print_csv_row e₀ e₁'
    ∧ print_json e₀ e₁ = print_json e₀ e₁'
    ∧ print_human_readable e₀ e₁ = print_human_readable e₀ e₁' := by
  refine ⟨rfl, rfl, rfl, ?_⟩
  simp only [print_human_readable, hp]

theorem c4_presenter_witness :
    print_csv_header env_a env_a = print_csv_header env_a env_a2
    ∧ print_csv_row env_a env_a = print_csv_row env_a env_a2
    ∧ print_json env_a env_a = print_json env_a env_a2
    ∧ print_human_readable env_a env_a = print_human_readable env_a env_a2 :=
  c4_presenter_amended env_a env_a env_a2 rfl

/-- C5: for every accepted `--format` value (with or without `--once`), the
process exits with status 0 when collection succeeds; when collection raises,
it exits with status 1, nothing is written to standard output (no partial
snapshot), and the error message is appended to the error stream after any
per-disk diagnostics. -/
theorem c5_exit_codes (fmt : String) (once : Bool) (e₀ e₁ : Env)
    (hf : fmt ∈ formatChoices) :
    (∀ msg, (collect_metrics e₀).snapshot = .fail msg →
       run_main fmt once e₀ e₁
         = { exitCode := 1, outLines := [],
             errLines := (collect_metrics e₀).logs
               ++ ["Error collecting metrics: " ++ msg] })
    ∧ (∀ d, (collect_metrics e₀).snapshot = .ok d →
        (run_main fmt once e₀ e₁).exitCode = 0) := by
  constructor
  · intro msg hmsg
    have hdisp : dispatch_format fmt e₀ e₁ = .fail msg (collect_metrics e₀).logs := by
      have hhdr : print_csv_header e₀ e₁ = .fail msg (collect_metrics e₀).logs := by
        simp [print_csv_header, hmsg]
      have hjson : print_json e₀ e₁ = .fail msg (collect_metrics e₀).logs := by
        simp [print_json, hmsg]
      have hhum : print_human_readable e₀ e₁
          = .fail msg (collect_metrics e₀).logs := by
        simp [print_human_readable, hmsg]
      have hrow : print_csv_row e₀ e₁ = .fail msg (collect_metrics e₀).logs := by
        simp [print_csv_row, hmsg]
      simp only [dispatch_format]
      by_cases h1 : fmt = "header"
      · rw [if_pos h1]; exact hhdr
      · rw [if_neg h1]
        by_cases h2 : fmt = "json"
        · rw [if_pos h2]; exact hjson
        · rw [if_neg h2]
          by_cases h3 : fmt = "human"
          · rw [if_pos h3]; exact hhum
          · rw [if_neg h3]; exact hrow
    simp [run_main, hf, hdisp]
  · intro d hd
    simp only [run_main]
    rw [if_pos hf]
    simp only [dispatch_format]
    by_cases h1 : fmt = "header"
    · rw [if_pos h1]; simp [print_csv_header, hd]
    · rw [if_neg h1]
      by_cases h2 : fmt = "json"
      · rw [if_pos h2]; simp [print_json, hd]
      · rw [if_neg h2]
        by_cases h3 : fmt = "human"
        · rw [if_pos h3]; simp [print_human_readable, hd]
        · rw [if_neg h3]; simp [print_csv_row, hd]

theorem c5_exit_codes_witness :
    run_main "csv" false env_b env_b
      = { exitCode := 1, outLines := [],
          errLines := (collect_metrics env_b).logs
            ++ ["Error collecting metrics: " ++ "getloadavg unavailable"] }
    ∧ (run_main "csv" false env_a env_a).exitCode = 0 :=
  ⟨(c5_exit_codes "csv" false env_b env_b (by decide)).1
      "getloadavg unavailable" rfl,
   (c5_exit_codes "csv" false env_a env_a (by decide)).2 _ rfl⟩

/-- C6: on a successful pass whose key layout is collision-free, the snapshot
is exactly the fixed keys, then the dynamic per-mount block, then — only when
the byte total accumulated over entries whose filesystem type contains
neither `overlay` nor `squashfs` is positive — the three aggregate keys with
`disk_percent_all = round2(used/total*100)`, then `disk_count`; when the
accumulated total is zero the three aggregate keys are absent. -/
theorem c6_aggregate_totals (env : Env) (l1 l5 l15 : ℚ)
    (hl : env.loadavg = .ok l1 l5 l15)
    (hk : ((base_dict env l1 l5 l15).map Prod.fst
        ++ dyn_keys (get_disk_metrics env.partitions).metrics
        ++ ["disk_total_all_gb", "disk_used_all_gb", "disk_percent_all",
            "disk_count"]).Nodup) :
    (collect_metrics env).snapshot
      = .ok (base_dict env l1 l5 l15
          ++ dyn_pairs (get_disk_metrics env.partitions).metrics
          ++ (if agg_size (get_disk_metrics env.partitions).metrics > 0 then
                [("disk_total_all_gb", .vNum (round2
                    ((agg_size (get_disk_metrics env.partitions).metrics : ℚ) / 1024 ^ 3))),
                 ("disk_used_all_gb", .vNum (round2
                    ((agg_used (get_disk_metrics env.partitions).metrics : ℚ) / 1024 ^ 3))),
                 ("disk_percent_all", .vNum (round2
                    (((agg_used (get_disk_metrics env.partitions).metrics : ℚ)
                      / (agg_size (get_disk_metrics env.partitions).metrics : ℚ)) * 100)))]
              else [])
          ++ [("disk_count",
               .vNum ((get_disk_metrics env.partitions).metrics.length : ℚ))])
    ∧ (agg_size (get_disk_metrics env.partitions).metrics = 0 →
        csnap_lookup (collect_metrics env) "disk_total_all_gb" = none
        ∧ csnap_lookup (collect_metrics env) "disk_used_all_gb" = none
        ∧ csnap_lookup (collect_metrics env) "disk_percent_all" = none) := by
  have hmain := collect_metrics_eq env l1 l5 l15 hl hk
  constructor
  · rw [hmain]
  · intro hz
    have hdisj := (List.nodup_append.mp hk).2.2
    have hnotin : ∀ x : String,
        x ∈ (["disk_total_all_gb", "disk_used_all_gb", "disk_percent_all",
              "disk_count"] : List String) →
        x ∉ (base_dict env l1 l5 l15).map Prod.fst
          ++ dyn_keys (get_disk_metrics env.partitions).metrics :=
      fun x hx hmem => hdisj hmem hx
    have hlook : ∀ x : String,
        x ∈ (["disk_total_all_gb", "disk_used_all_gb", "disk_percent_all"]
          : List String) →
        csnap_lookup (collect_metrics env) x = none := by
      intro x hx
      simp only [List.mem_cons, List.not_mem_nil, or_false] at hx
      have hxC : x ∈ (["disk_total_all_gb", "disk_used_all_gb",
          "disk_percent_all", "disk_count"] : List String) := by
        rcases hx with rfl | rfl | rfl <;> decide
      have hxcount : x ≠ "disk_count" := by
        rcases hx with rfl | rfl | rfl <;> decide
      rw [hmain]
      simp only [csnap_lookup]
      rw [if_neg (by simp [hz])]
      apply assocLookup_eq_none
      intro hmem
      simp only [List.map_append, dyn_pairs_keys, List.append_nil, List.map_cons,
        List.map_nil, List.mem_append, List.mem_singleton] at hmem
      rcases hmem with (hmem | hmem) | hmem
      · exact hnotin x hxC (List.mem_append_left _ hmem)
      · exact hnotin x hxC (List.mem_append_right _ hmem)
      · exact hxcount hmem
    exact ⟨hlook _ (by decide), hlook _ (by decide), hlook _ (by decide)⟩

theorem c6_aggregate_totals_witness :
    (collect_metrics env_a).snapshot
      = .ok (base_dict env_a 0.5 0.75 1
          ++ dyn_pairs (get_disk_metrics env_a.partitions).metrics
          ++ (if agg_size (get_disk_metrics env_a.partitions).metrics > 0 then
                [("disk_total_all_gb", .vNum (round2
                    ((agg_size (get_disk_metrics env_a.partitions).metrics : ℚ) / 1024 ^ 3))),
                 ("disk_used_all_gb", .vNum (round2
                    ((agg_used (get_disk_metrics env_a.partitions).metrics : ℚ) / 1024 ^ 3))),
                 ("disk_percent_all", .vNum (round2
                    (((agg_used (get_disk_metrics env_a.partitions).metrics : ℚ)
                      / (agg_size (get_disk_metrics env_a.partitions).metrics : ℚ)) * 100)))]
              else [])
          ++ [("disk_count",
               .vNum ((get_disk_metrics env_a.partitions).metrics.length : ℚ))])
    ∧ (agg_size (get_disk_metrics env_a.partitions).metrics = 0 →
        csnap_lookup (collect_metrics env_a) "disk_total_all_gb" = none
        ∧ csnap_lookup (collect_metrics env_a) "disk_used_all_gb" = none
        ∧ csnap_lookup (collect_metrics env_a) "disk_percent_all" = none) :=
  c6_aggregate_totals env_a 0.5 0.75 1 rfl (by decide)

/-- C7: a partition whose filesystem type is in the fixed virtual set, or
whose usage query fails with a permission or not-found error, contributes
nothing at all to the disk pass — removing it from the partition list changes
neither the mapping nor the diagnostics; a usage query failing with any other
error leaves the mapping likewise unchanged but logs one line to the error
stream; in every such case collection proceeds and `disk_count` equals the
number of entries collected from the remaining partitions. -/
theorem c7_virtual_exclusion (l₁ l₂ : List Partition) (p : Partition) :
    (p.fstype ∈ virtualFsTypes ∨ p.usage = .err .permissionError
        ∨ p.usage = .err .fileNotFoundError →
      get_disk_metrics (l₁ ++ p :: l₂) = get_disk_metrics (l₁ ++ l₂))
    ∧ (∀ msg, p.fstype ∉ virtualFsTypes → p.usage = .err (.otherError msg) →
        (get_disk_metrics (l₁ ++ p :: l₂)).metrics
            = (get_disk_metrics (l₁ ++ l₂)).metrics
        ∧ (get_disk_metrics (l₁ ++ p :: l₂)).logs
            = (get_disk_metrics l₁).logs
              ++ ["Error reading " ++ p.mountpoint ++ ": " ++ msg]
              ++ (get_disk_metrics l₂).logs)
    ∧ (∀ env l1 l5 l15, env.partitions = l₁ ++ p :: l₂ →
        env.loadavg = .ok l1 l5 l15 →
        (p.fstype ∈ virtualFsTypes ∨ (∃ e, p.usage = .err e)) →
        csnap_lookup (collect_metrics env) "disk_count"
          = some (.vNum ((get_disk_metrics (l₁ ++ l₂)).metrics.length : ℚ))) := by
  have hmet : (p.fstype ∈ virtualFsTypes ∨ (∃ e, p.usage = .err e)) →
      (get_disk_metrics (l₁ ++ p :: l₂)).metrics
        = (get_disk_metrics (l₁ ++ l₂)).metrics := by
    intro hx
    have hm : (gdm_step (List.foldl gdm_step { metrics := [], logs := [] } l₁) p).metrics
        = (List.foldl gdm_step { metrics := [], logs := [] } l₁).metrics := by
      rcases hx with hv | ⟨e, he⟩
      · simp [gdm_step, hv]
      · by_cases hv : p.fstype ∈ virtualFsTypes
        · simp [gdm_step, hv]
        · cases e <;> simp [gdm_step, hv, he]
    simp only [get_disk_metrics, List.foldl_append, List.foldl_cons]
    exact gdm_fold_metrics_only l₂ _ _ hm
  refine ⟨?_, ?_, ?_⟩
  · intro h
    simp only [get_disk_metrics, List.foldl_append, List.foldl_cons,
      gdm_step_excluded _ _ h]
  · intro msg hv hu
    constructor
    · exact hmet (Or.inr ⟨_, hu⟩)
    · simp only [get_disk_metrics, List.foldl_append, List.foldl_cons,
        gdm_fold_logs, gdm_step_logs, List.nil_append, List.append_assoc]
      simp [gdm_log_of, hv, hu]
  · intro env l1 l5 l15 henv hl hexc
    simp only [collect_metrics, hl, csnap_lookup]
    rw [assocLookup_insert_self]
    rw [henv, hmet hexc]

theorem c7_virtual_exclusion_witness :
    get_disk_metrics
        ([] ++ ({ device := "tmpfs", mountpoint := "/run", fstype := "tmpfs",
                  usage := .ok usage50 } : Partition)
          :: [{ device := "/dev/sda1", mountpoint := "/", fstype := "ext4",
                usage := .ok usage100 }])
      = get_disk_metrics
        ([] ++ [{ device := "/dev/sda1", mountpoint := "/", fstype := "ext4",
                  usage := .ok usage100 }]) :=
  (c7_virtual_exclusion []
    [{ device := "/dev/sda1", mountpoint := "/", fstype := "ext4",
       usage := .ok usage100 }]
    { device := "tmpfs", mountpoint := "/run", fstype := "tmpfs",
      usage := .ok usage50 }).1 (Or.inl (by decide))

/-- C8: the sanitized infix of every included partition's six dynamic keys is
obtained from the mountpoint by replacing path separators and dots with
underscores and trimming leading/trailing underscores (the code's two
single-character replacements followed by a strip coincide with the
specification's one-pass description), the empty result maps to the literal
`root`, and a partition mounted at `/` is stored under `root` — its keys are
the `disk_root_*` family, never `disk__*` or an empty infix. -/
theorem c8_sanitization :
    (∀ mp, mount_name mp = spec_mount_name mp)
    ∧ mount_name "/" = "root"
    ∧ (∀ dev fs u, fs ∉ virtualFsTypes →
        (get_disk_metrics [{ device := dev, mountpoint := "/",
                             fstype := fs, usage := .ok u }]).metrics.map
          Prod.fst = ["root"])
    ∧ keys6 (mount_name "/")
        = ["disk_root_total_gb", "disk_root_used_gb", "disk_root_free_gb",
           "disk_root_percent", "disk_root_device", "disk_root_fstype"] := by
  refine ⟨?_, by decide, ?_, by decide⟩
  · intro mp
    have hfun : ∀ ch ∈ mp.data,
        ((fun x => if x = '.' then '_' else x) ∘ fun x => if x = '/' then '_' else x) ch
          = (fun ch => if ch = '/' ∨ ch = '.' then '_' else ch) ch := by
      intro ch _
      by_cases h1 : ch = '/'
      · subst h1; decide
      · by_cases h2 : ch = '.'
        · subst h2; decide
        · simp [h1, h2]
    simp only [mount_name, spec_mount_name, pyReplaceChar, pyStripUnderscore,
      List.map_map]
    rw [List.map_congr_left hfun]
  · intro dev fs u hfs
    simp [get_disk_metrics, gdm_step, hfs, assocInsert]
    decide

theorem c8_sanitization_witness :
    mount_name "/var/log.2" = spec_mount_name "/var/log.2"
    ∧ (get_disk_metrics [{ device := "/dev/sda1", mountpoint := "/",
                           fstype := "ext4", usage := .ok usage100 }]).metrics.map
        Prod.fst = ["root"] :=
  ⟨c8_sanitization.1 "/var/log.2",
   c8_sanitization.2.2.1 "/dev/sda1" "ext4" usage100 (by decide)⟩

/-- C9: for an included partition, the stored `total_gb` is the byte total
divided by 1024³ (binary units) rounded to two decimals, and for a usage
reading with total = 10,737,418,240 bytes (exactly 10 GiB) it equals 10. -/
theorem c9_binary_units (dev mp fs : String) (u : Usage)
    (hfs : fs ∉ virtualFsTypes) :
    ((get_disk_metrics [{ device := dev, mountpoint := mp,
                          fstype := fs, usage := .ok u }]).metrics.map
        (fun e => e.2.total_gb))
      = [round2 ((u.total : ℚ) / 1024 ^ 3)]
    ∧ (u.total = 10737418240 →
        ((get_disk_metrics [{ device := dev, mountpoint := mp,
                              fstype := fs, usage := .ok u }]).metrics.map
            (fun e => e.2.total_gb)) = [10]) := by
  constructor
  · simp [get_disk_metrics, gdm_step, hfs, assocInsert]
  · intro h10
    simp [get_disk_metrics, gdm_step, hfs, assocInsert, h10]
    norm_num [round2, ratRound]

theorem c9_binary_units_witness :
    ((get_disk_metrics [{ device := "/dev/sda1", mountpoint := "/",
                          fstype := "ext4", usage := .ok usage10 }]).metrics.map
        (fun e => e.2.total_gb)) = [10] :=
  (c9_binary_units "/dev/sda1" "/" "ext4" usage10 (by decide)).2 rfl

/-- C10: whenever the queried swap total is zero, the snapshot stores the
number 0 — not null, and a rational, so never NaN — under each of
`swap_total_gb`, `swap_used_gb` and `swap_percent`. -/
theorem c10_swap_zero (env : Env) (l1 l5 l15 : ℚ)
    (hl : env.loadavg = .ok l1 l5 l15) (hswap : env.swap_total = 0) :
    csnap_lookup (collect_metrics env) "swap_total_gb" = some (.vNum 0)
    ∧ csnap_lookup (collect_metrics env) "swap_used_gb" = some (.vNum 0)
    ∧ csnap_lookup (collect_metrics env) "swap_percent" = some (.vNum 0) := by
  have main : ∀ k : String, k.data.head? = some 's' →
      csnap_lookup (collect_metrics env) k
        = assocLookup (base_dict env l1 l5 l15) k := by
    intro k hk
    have hne : ∀ m sfx, disk_key m sfx ≠ k := fun m sfx =>
      disk_key_ne m sfx k (by rw [hk]; decide)
    have hne2 : ∀ s : String, s.data.head? = some 'd' → s ≠ k := by
      intro s hs he
      rw [he, hk] at hs
      exact absurd (Option.some.inj hs) (by decide)
    simp only [collect_metrics, hl, csnap_lookup]
    rw [assocLookup_insert_ne _ _ _ _ (hne2 "disk_count" (by decide))]
    by_cases hpos :
        ((get_disk_metrics env.partitions).metrics.foldl disk_fold_step
          (base_dict env l1 l5 l15, 0, 0)).2.2 > 0
    · rw [if_pos hpos]
      rw [assocLookup_insert_ne _ _ _ _ (hne2 "disk_percent_all" (by decide)),
          assocLookup_insert_ne _ _ _ _ (hne2 "disk_used_all_gb" (by decide)),
          assocLookup_insert_ne _ _ _ _ (hne2 "disk_total_all_gb" (by decide))]
      rw [fold_dyn_lookup _ _ hne]
    · rw [if_neg hpos]
      rw [fold_dyn_lookup _ _ hne]
  refine ⟨?_, ?_, ?_⟩
  · rw [main _ (by decide)]
    simp [base_dict, assocLookup_cons, hswap]
  · rw [main _ (by decide)]
    simp [base_dict, assocLookup_cons, hswap]
  · rw [main _ (by decide)]
    simp [base_dict, assocLookup_cons, hswap]

theorem c10_swap_zero_witness :
    csnap_lookup (collect_metrics env_a) "swap_total_gb" = some (.vNum 0)
    ∧ csnap_lookup (collect_metrics env_a) "swap_used_gb" = some (.vNum 0)
    ∧ csnap_lookup (collect_metrics env_a) "swap_percent" = some (.vNum 0) :=
  c10_swap_zero env_a 0.5 0.75 1 rfl rfl

end ServerMetrics
